import Mathlib

/-!
Verification of the solar sizing engine `calculateSolarSystem` from
src/src/App.tsx (lines 160-203).  The engine is embedded shallowly:
JavaScript numbers are modelled as exact rationals, JavaScript division
is modelled by `jsDiv` (returning explicit infinity/NaN values when the
divisor is zero, as IEEE-754 does on exact inputs), and the JavaScript
falsy-coalescing operator `||` on numbers is modelled by `jsOr` (zero is
the only falsy rational).  `Math.ceil` is modelled by the integer ceiling.
-/

namespace Inverta

/-- The `type` field of a catalog item (src/src/App.tsx line 129). -/
inductive ItemType where
  | panel
  | inverter
  | battery
  | installation
  deriving DecidableEq

/-- Catalog entry (src/src/App.tsx line 129).  `id`, `name` and `unit` are
display strings that the engine never computes with. -/
structure CatalogItem where
  id : String
  name : String
  type : ItemType
  price : ℚ
  spec : ℚ
  unit : String
  deriving DecidableEq

/-- One selected appliance as consumed by the engine (src/src/App.tsx
lines 131-132).  The source type also carries display-only fields
(`id`, `name`, `icon`, `defaultHours`) that the engine never reads;
they are omitted here. -/
structure SelectedAppliance where
  watts : ℚ
  count : ℚ
  hours : ℚ
  deriving DecidableEq

/-- A JavaScript number outcome: finite, an infinity, or NaN. -/
inductive JSNum where
  | fin (q : ℚ)
  | posInf
  | negInf
  | nan
  deriving DecidableEq

/-- JavaScript division on exact inputs: a zero divisor yields a signed
infinity (or NaN for `0 / 0`) instead of an error. -/
def jsDiv (a b : ℚ) : JSNum :=
  if b = 0 then (if 0 < a then JSNum.posInf else if a < 0 then JSNum.negInf else JSNum.nan)
  else JSNum.fin (a / b)

/-- JavaScript `a || d` on numbers: `0` is falsy, every other rational is
truthy. -/
def jsOr (a d : ℚ) : ℚ := if a = 0 then d else a

/-- Accumulation `dailyWh += app.watts * app.count * app.hours`
(src/src/App.tsx line 165; the source accumulates `dailyWh` and
`peakWatts` in one `forEach` pass, split here into two folds). -/
def dailyWhOf (appliances : List SelectedAppliance) : ℚ :=
  appliances.foldl (fun acc app => acc + app.watts * app.count * app.hours) 0

/-- Accumulation `peakWatts += app.watts * app.count` (line 166). -/
def peakWattsOf (appliances : List SelectedAppliance) : ℚ :=
  appliances.foldl (fun acc app => acc + app.watts * app.count) 0

/-- `const diversityFactor = 0.7` (line 169). -/
def diversityFactor : ℚ := 0.7

/-- `designedPeakLoad = peakWatts * diversityFactor` (line 170). -/
def designedPeakLoadOf (appliances : List SelectedAppliance) : ℚ :=
  peakWattsOf appliances * diversityFactor

/-- `requiredInverterSize = designedPeakLoad * 1.2` (line 172). -/
def requiredInverterSizeOf (appliances : List SelectedAppliance) : ℚ :=
  designedPeakLoadOf appliances * 1.2

/-- Predicate of the first `find` on line 173:
`i.type === 'inverter' && i.spec >= requiredInverterSize`. -/
def isQualifyingInverter (req : ℚ) (i : CatalogItem) : Bool :=
  decide (i.type = ItemType.inverter) && decide (req ≤ i.spec)

/-- Predicate `i.type === 'inverter'` of the fallback `find` on line 173. -/
def isInverterItem (i : CatalogItem) : Bool :=
  decide (i.type = ItemType.inverter)

/-- Line 173: `catalog.find(i => i.type === 'inverter' && i.spec >=
requiredInverterSize) || catalog.find(i => i.type === 'inverter')`. -/
def findInverter (catalog : List CatalogItem) (req : ℚ) : Option CatalogItem :=
  match catalog.find? (isQualifyingInverter req) with
  | some i => some i
  | none => catalog.find? isInverterItem

/-- Line 177: `catalog.find(i => i.type === 'battery')`. -/
def findBattery (catalog : List CatalogItem) : Option CatalogItem :=
  catalog.find? (fun i => decide (i.type = ItemType.battery))

/-- Line 181: `catalog.find(i => i.type === 'panel')`. -/
def findPanel (catalog : List CatalogItem) : Option CatalogItem :=
  catalog.find? (fun i => decide (i.type = ItemType.panel))

/-- Line 189: `catalog.find(i => i.type === 'installation')`. -/
def findInstallation (catalog : List CatalogItem) : Option CatalogItem :=
  catalog.find? (fun i => decide (i.type = ItemType.installation))

/-- `x?.spec || d`: an absent item (`undefined`) is falsy, and a present
item with spec `0` is also falsy, so both fall back to `d`. -/
def specOr (o : Option CatalogItem) (d : ℚ) : ℚ :=
  match o with
  | none => d
  | some i => jsOr i.spec d

/-- `x?.price || 0`: an absent item contributes price `0`; for a present
item `price || 0` equals `price` (both branches agree when `price = 0`). -/
def priceOf (o : Option CatalogItem) : ℚ :=
  match o with
  | none => 0
  | some i => i.price

/-- Divisor of the inverter-count division, `inverter?.spec || 5000`
(line 174). -/
def invDivisor (catalog : List CatalogItem) (req : ℚ) : ℚ :=
  specOr (findInverter catalog req) 5000

/-- Divisor of the battery-count division, `battery?.spec || 4800`
(line 178). -/
def batDivisor (catalog : List CatalogItem) : ℚ :=
  specOr (findBattery catalog) 4800

/-- Divisor of the panel-count division, `panel?.spec || 550` (line 182). -/
def panDivisor (catalog : List CatalogItem) : ℚ :=
  specOr (findPanel catalog) 550

/-- `inverterCount = Math.ceil(requiredInverterSize / (inverter?.spec ||
5000))` (line 174). -/
def inverterCountOf (appliances : List SelectedAppliance) (catalog : List CatalogItem) : ℤ :=
  ⌈requiredInverterSizeOf appliances / invDivisor catalog (requiredInverterSizeOf appliances)⌉

/-- `requiredStorageWh = dailyWh * 0.6` (line 176). -/
def requiredStorageWhOf (appliances : List SelectedAppliance) : ℚ :=
  dailyWhOf appliances * 0.6

/-- `batteryCount = Math.ceil(requiredStorageWh / (battery?.spec || 4800))`
(line 178). -/
def batteryCountOf (appliances : List SelectedAppliance) (catalog : List CatalogItem) : ℤ :=
  ⌈requiredStorageWhOf appliances / batDivisor catalog⌉

/-- `requiredPanelPower = (dailyWh / 4.5) * 1.3` (line 180). -/
def requiredPanelPowerOf (appliances : List SelectedAppliance) : ℚ :=
  dailyWhOf appliances / 4.5 * 1.3

/-- `panelCount = Math.ceil(requiredPanelPower / (panel?.spec || 550))`
(line 182). -/
def panelCountOf (appliances : List SelectedAppliance) (catalog : List CatalogItem) : ℤ :=
  ⌈requiredPanelPowerOf appliances / panDivisor catalog⌉

/-- `equipmentCost` (lines 184-187). -/
def equipmentCostOf (appliances : List SelectedAppliance) (catalog : List CatalogItem) : ℚ :=
  (inverterCountOf appliances catalog : ℚ)
      * priceOf (findInverter catalog (requiredInverterSizeOf appliances))
    + (batteryCountOf appliances catalog : ℚ) * priceOf (findBattery catalog)
    + (panelCountOf appliances catalog : ℚ) * priceOf (findPanel catalog)

/-- `installCost = catalog.find(i => i.type === 'installation')?.price ||
150000` (line 189): an absent item, or a present item with price `0`,
falls back to `150000`. -/
def installCostOf (catalog : List CatalogItem) : ℚ :=
  match findInstallation catalog with
  | none => 150000
  | some i => jsOr i.price 150000

/-- `totalCost = equipmentCost + installCost` (line 190). -/
def totalCostOf (appliances : List SelectedAppliance) (catalog : List CatalogItem) : ℚ :=
  equipmentCostOf appliances catalog + installCostOf catalog

/-- `totalAnnualSavings = monthlyBill*12 + (fuelCost*12 * 0.9)`
(lines 192-194). -/
def totalAnnualSavingsOf (monthlyBill fuelCost : ℚ) : ℚ :=
  monthlyBill * 12 + fuelCost * 12 * 0.9

/-- `co2Saved = dailyWh * 0.4 * 365 / 1000` (line 195). -/
def co2SavedOf (appliances : List SelectedAppliance) : ℚ :=
  dailyWhOf appliances * 0.4 * 365 / 1000

/-- The `system` field of the engine's return value (line 198). -/
structure SystemSelection where
  inverterCount : ℤ
  batteryCount : ℤ
  panelCount : ℤ
  inverter : Option CatalogItem
  battery : Option CatalogItem
  panel : Option CatalogItem
  deriving DecidableEq

/-- The `financials` field of the engine's return value (line 199).
`roiYears` is the raw JavaScript quotient, hence a `JSNum`. -/
structure Financials where
  totalCost : ℚ
  totalAnnualSavings : ℚ
  roiYears : JSNum
  deriving DecidableEq

/-- The `impact` field of the engine's return value (line 200). -/
structure Impact where
  co2Saved : ℚ
  deriving DecidableEq

/-- The `details` field of the engine's return value (line 201). -/
structure Details where
  dailyWh : ℚ
  designedPeakLoad : ℚ
  deriving DecidableEq

/-- The engine's return value (lines 197-202). -/
structure SizingResult where
  system : SystemSelection
  financials : Financials
  impact : Impact
  details : Details
  deriving DecidableEq

/-- The sizing engine, src/src/App.tsx lines 160-203, assembled from the
named per-line definitions above. -/
def calculateSolarSystem (monthlyBill fuelCost : ℚ) (appliances : List SelectedAppliance)
    (catalog : List CatalogItem) : SizingResult :=
  { system :=
      { inverterCount := inverterCountOf appliances catalog
        batteryCount := batteryCountOf appliances catalog
        panelCount := panelCountOf appliances catalog
        inverter := findInverter catalog (requiredInverterSizeOf appliances)
        battery := findBattery catalog
        panel := findPanel catalog }
    financials :=
      { totalCost := totalCostOf appliances catalog
        totalAnnualSavings := totalAnnualSavingsOf monthlyBill fuelCost
        roiYears := jsDiv (totalCostOf appliances catalog)
          (totalAnnualSavingsOf monthlyBill fuelCost) }
    impact := { co2Saved := co2SavedOf appliances }
    details :=
      { dailyWh := dailyWhOf appliances
        designedPeakLoad := designedPeakLoadOf appliances } }

/-- `DEFAULT_CATALOG` (src/src/App.tsx lines 153-158). -/
def DEFAULT_CATALOG : List CatalogItem :=
  [ ⟨"1", "Jinko Solar Tiger Pro (550W)", ItemType.panel, 85000, 550, "W"⟩,
    ⟨"2", "Growatt Hybrid Inverter (5kVA)", ItemType.inverter, 650000, 5000, "VA"⟩,
    ⟨"3", "Felicity Lithium Battery (5kWh)", ItemType.battery, 1200000, 5000, "Wh"⟩,
    ⟨"4", "Mounting & Install Kit", ItemType.installation, 150000, 1, "Lot"⟩ ]

/-- Division with an explicit divisor check: `none` exactly when the code
would divide by zero.  Used to state that the engine's count divisions
never actually do. -/
def checkedDiv (a b : ℚ) : Option ℚ :=
  if b = 0 then none else some (a / b)

/-- The engine with every division of the count pipeline routed through
`checkedDiv`, so that any division by zero would surface as `none`
instead of being absorbed.  The payback division keeps its JavaScript
semantics (`jsDiv`), which is total. -/
def calculateSolarSystemChecked (monthlyBill fuelCost : ℚ) (appliances : List SelectedAppliance)
    (catalog : List CatalogItem) : Option SizingResult := do
  let invQ ← checkedDiv (requiredInverterSizeOf appliances)
    (invDivisor catalog (requiredInverterSizeOf appliances))
  let batQ ← checkedDiv (requiredStorageWhOf appliances) (batDivisor catalog)
  let sunQ ← checkedDiv (dailyWhOf appliances) 4.5
  let panQ ← checkedDiv (sunQ * 1.3) (panDivisor catalog)
  let totalCost :=
    (⌈invQ⌉ : ℚ) * priceOf (findInverter catalog (requiredInverterSizeOf appliances))
      + (⌈batQ⌉ : ℚ) * priceOf (findBattery catalog)
      + (⌈panQ⌉ : ℚ) * priceOf (findPanel catalog)
      + installCostOf catalog
  some
    { system :=
        { inverterCount := ⌈invQ⌉
          batteryCount := ⌈batQ⌉
          panelCount := ⌈panQ⌉
          inverter := findInverter catalog (requiredInverterSizeOf appliances)
          battery := findBattery catalog
          panel := findPanel catalog }
      financials :=
        { totalCost := totalCost
          totalAnnualSavings := totalAnnualSavingsOf monthlyBill fuelCost
          roiYears := jsDiv totalCost (totalAnnualSavingsOf monthlyBill fuelCost) }
      impact := { co2Saved := co2SavedOf appliances }
      details :=
        { dailyWh := dailyWhOf appliances
          designedPeakLoad := designedPeakLoadOf appliances } }

/-- Selection policy written independently of the engine, following the
amended wording of the inverter-selection claim: the first inverter item
in catalog order whose spec reaches the requirement. -/
def firstQualifyingInverter : List CatalogItem → ℚ → Option CatalogItem
  | [], _ => none
  | i :: rest, req =>
    if i.type = ItemType.inverter ∧ req ≤ i.spec then some i
    else firstQualifyingInverter rest req

/-- The first inverter item in catalog order, written independently of the
engine. -/
def firstInverterItem : List CatalogItem → Option CatalogItem
  | [] => none
  | i :: rest => if i.type = ItemType.inverter then some i else firstInverterItem rest

/-- Catalog for the inverter-selection counterexample: a higher-spec
inverter listed before a lower-spec one, both adequate for the demand. -/
def cexSelectionCatalog : List CatalogItem :=
  [ ⟨"A", "Inverter A (10kVA)", ItemType.inverter, 1, 10000, "VA"⟩,
    ⟨"B", "Inverter B (6kVA)", ItemType.inverter, 1, 6000, "VA"⟩ ]

/-- Catalog for the cost-monotonicity counterexample: a small expensive
inverter listed before a large cheap one. -/
def cexMonotoneCatalog : List CatalogItem :=
  [ ⟨"1", "Small inverter (2kVA)", ItemType.inverter, 1000000, 2000, "VA"⟩,
    ⟨"2", "Big inverter (5kVA)", ItemType.inverter, 100000, 5000, "VA"⟩ ]

/-- Catalog of spec scenario 3: exactly one inverter item, of spec 5000. -/
def scenario3Catalog : List CatalogItem :=
  [ ⟨"2", "Growatt Hybrid Inverter (5kVA)", ItemType.inverter, 650000, 5000, "VA"⟩ ]

/-- Demand whose required inverter size is exactly 6000 VA:
`(50000/7) * 0.7 * 1.2 = 6000`. -/
def demand6000 : List SelectedAppliance :=
  [ ⟨50000 / 7, 1, 1⟩ ]

section Helpers

theorem foldl_add_map {α : Type} (f : α → ℚ) (l : List α) (init : ℚ) :
    l.foldl (fun acc a => acc + f a) init = init + (l.map f).sum := by
  induction l generalizing init with
  | nil => simp
  | cons a t ih =>
    simp only [List.foldl_cons, List.map_cons, List.sum_cons, ih]
    ring

theorem dailyWhOf_eq_sum (l : List SelectedAppliance) :
    dailyWhOf l = (l.map fun a => a.watts * a.count * a.hours).sum := by
  unfold dailyWhOf
  rw [foldl_add_map (fun a => a.watts * a.count * a.hours) l 0, zero_add]

theorem peakWattsOf_eq_sum (l : List SelectedAppliance) :
    peakWattsOf l = (l.map fun a => a.watts * a.count).sum := by
  unfold peakWattsOf
  rw [foldl_add_map (fun a => a.watts * a.count) l 0, zero_add]

theorem dailyWhOf_nonneg {l : List SelectedAppliance}
    (h : ∀ a ∈ l, 0 ≤ a.watts ∧ 0 ≤ a.count ∧ 0 ≤ a.hours) : 0 ≤ dailyWhOf l := by
  rw [dailyWhOf_eq_sum]
  refine List.sum_nonneg ?_
  intro x hx
  obtain ⟨a, ha, rfl⟩ := List.mem_map.mp hx
  obtain ⟨hw, hc, hh⟩ := h a ha
  exact mul_nonneg (mul_nonneg hw hc) hh

theorem peakWattsOf_nonneg {l : List SelectedAppliance}
    (h : ∀ a ∈ l, 0 ≤ a.watts ∧ 0 ≤ a.count ∧ 0 ≤ a.hours) : 0 ≤ peakWattsOf l := by
  rw [peakWattsOf_eq_sum]
  refine List.sum_nonneg ?_
  intro x hx
  obtain ⟨a, ha, rfl⟩ := List.mem_map.mp hx
  obtain ⟨hw, hc, _⟩ := h a ha
  exact mul_nonneg hw hc

theorem sum_map_pos {α : Type} (f : α → ℚ) {l : List α} {a : α}
    (h0 : ∀ x ∈ l, 0 ≤ f x) (ha : a ∈ l) (hpos : 0 < f a) : 0 < (l.map f).sum := by
  obtain ⟨s, t, rfl⟩ := List.append_of_mem ha
  rw [List.map_append, List.sum_append, List.map_cons, List.sum_cons]
  have hs : 0 ≤ (s.map f).sum := by
    refine List.sum_nonneg ?_
    intro x hx
    obtain ⟨y, hy, rfl⟩ := List.mem_map.mp hx
    exact h0 y (by simp [hy])
  have ht : 0 ≤ (t.map f).sum := by
    refine List.sum_nonneg ?_
    intro x hx
    obtain ⟨y, hy, rfl⟩ := List.mem_map.mp hx
    exact h0 y (by simp [hy])
  linarith

theorem dailyWhOf_pos {l : List SelectedAppliance} {a : SelectedAppliance}
    (h : ∀ x ∈ l, 0 ≤ x.watts ∧ 0 ≤ x.count ∧ 0 ≤ x.hours) (ha : a ∈ l)
    (hw : 0 < a.watts) (hc : 0 < a.count) (hh : 0 < a.hours) : 0 < dailyWhOf l := by
  rw [dailyWhOf_eq_sum]
  refine sum_map_pos _ ?_ ha (by positivity)
  intro x hx
  obtain ⟨h1, h2, h3⟩ := h x hx
  exact mul_nonneg (mul_nonneg h1 h2) h3

theorem peakWattsOf_pos {l : List SelectedAppliance} {a : SelectedAppliance}
    (h : ∀ x ∈ l, 0 ≤ x.watts ∧ 0 ≤ x.count ∧ 0 ≤ x.hours) (ha : a ∈ l)
    (hw : 0 < a.watts) (hc : 0 < a.count) : 0 < peakWattsOf l := by
  rw [peakWattsOf_eq_sum]
  refine sum_map_pos _ ?_ ha (by positivity)
  intro x hx
  obtain ⟨h1, h2, _⟩ := h x hx
  exact mul_nonneg h1 h2

theorem jsOr_ne_zero {a d : ℚ} (hd : d ≠ 0) : jsOr a d ≠ 0 := by
  unfold jsOr
  split
  · exact hd
  · assumption

theorem jsOr_pos {a d : ℚ} (hd : 0 < d) (ha : 0 ≤ a) : 0 < jsOr a d := by
  unfold jsOr
  split
  · exact hd
  · exact lt_of_le_of_ne ha (Ne.symm (by assumption))

theorem specOr_ne_zero (o : Option CatalogItem) {d : ℚ} (hd : d ≠ 0) : specOr o d ≠ 0 := by
  cases o with
  | none => exact hd
  | some i => exact jsOr_ne_zero hd

theorem specOr_pos {o : Option CatalogItem} {d : ℚ} (hd : 0 < d)
    (h : ∀ i, o = some i → 0 ≤ i.spec) : 0 < specOr o d := by
  cases o with
  | none => exact hd
  | some i => exact jsOr_pos hd (h i rfl)

theorem findInverter_mem {catalog : List CatalogItem} {req : ℚ} {i : CatalogItem}
    (h : findInverter catalog req = some i) : i ∈ catalog := by
  unfold findInverter at h
  cases hf : catalog.find? (isQualifyingInverter req) with
  | some j =>
    rw [hf] at h
    obtain rfl := Option.some.inj h
    exact List.mem_of_find?_eq_some hf
  | none =>
    rw [hf] at h
    exact List.mem_of_find?_eq_some h

theorem invDivisor_ne_zero (catalog : List CatalogItem) (req : ℚ) :
    invDivisor catalog req ≠ 0 :=
  specOr_ne_zero _ (by norm_num)

theorem batDivisor_ne_zero (catalog : List CatalogItem) : batDivisor catalog ≠ 0 :=
  specOr_ne_zero _ (by norm_num)

theorem panDivisor_ne_zero (catalog : List CatalogItem) : panDivisor catalog ≠ 0 :=
  specOr_ne_zero _ (by norm_num)

theorem invDivisor_pos {catalog : List CatalogItem} (req : ℚ)
    (hcat : ∀ i ∈ catalog, 0 ≤ i.spec) : 0 < invDivisor catalog req :=
  specOr_pos (by norm_num) (fun i hi => hcat i (findInverter_mem hi))

theorem batDivisor_pos {catalog : List CatalogItem}
    (hcat : ∀ i ∈ catalog, 0 ≤ i.spec) : 0 < batDivisor catalog :=
  specOr_pos (by norm_num) (fun i hi => hcat i (List.mem_of_find?_eq_some hi))

theorem panDivisor_pos {catalog : List CatalogItem}
    (hcat : ∀ i ∈ catalog, 0 ≤ i.spec) : 0 < panDivisor catalog :=
  specOr_pos (by norm_num) (fun i hi => hcat i (List.mem_of_find?_eq_some hi))

theorem isQualifyingInverter_eq_true {req : ℚ} {i : CatalogItem} :
    isQualifyingInverter req i = true ↔ (i.type = ItemType.inverter ∧ req ≤ i.spec) := by
  simp [isQualifyingInverter]

theorem isInverterItem_eq_true {i : CatalogItem} :
    isInverterItem i = true ↔ i.type = ItemType.inverter := by
  simp [isInverterItem]

theorem find?_isQualifyingInverter_eq (req : ℚ) (catalog : List CatalogItem) :
    catalog.find? (isQualifyingInverter req) = firstQualifyingInverter catalog req := by
  induction catalog with
  | nil => rfl
  | cons i rest ih =>
    rw [List.find?_cons]
    cases hb : isQualifyingInverter req i with
    | true =>
      have hq := isQualifyingInverter_eq_true.mp hb
      simp [firstQualifyingInverter, hq.1, hq.2]
    | false =>
      have hq : ¬(i.type = ItemType.inverter ∧ req ≤ i.spec) := by
        intro hc
        rw [isQualifyingInverter_eq_true.mpr hc] at hb
        cases hb
      simp only [firstQualifyingInverter, if_neg hq]
      exact ih

theorem find?_isInverterItem_eq (catalog : List CatalogItem) :
    catalog.find? isInverterItem = firstInverterItem catalog := by
  induction catalog with
  | nil => rfl
  | cons i rest ih =>
    rw [List.find?_cons]
    cases hb : isInverterItem i with
    | true =>
      have hq := isInverterItem_eq_true.mp hb
      simp [firstInverterItem, hq]
    | false =>
      have hq : ¬(i.type = ItemType.inverter) := by
        intro hc
        rw [isInverterItem_eq_true.mpr hc] at hb
        cases hb
      simp only [firstInverterItem, if_neg hq]
      exact ih

theorem checkedDiv_of_ne {a b : ℚ} (hb : b ≠ 0) : checkedDiv a b = some (a / b) := by
  unfold checkedDiv
  exact if_neg hb

end Helpers

/-- Claim C1 (the code, not the claim, is at fault): on the request with
zero bill, zero fuel cost, one 100 W appliance running 6 h and the default
catalog, `totalAnnualSavings` is 0, `totalCost` is positive, and the
engine's payback figure is the JavaScript positive infinity produced by
the unguarded division `totalCost / totalAnnualSavings` — not a guarded
undefined/unbounded sentinel. -/
theorem c1_zero_savings_gives_infinity :
    (calculateSolarSystem 0 0 [⟨100, 1, 6⟩] DEFAULT_CATALOG).financials.totalAnnualSavings = 0
      ∧ 0 < (calculateSolarSystem 0 0 [⟨100, 1, 6⟩] DEFAULT_CATALOG).financials.totalCost
      ∧ (calculateSolarSystem 0 0 [⟨100, 1, 6⟩] DEFAULT_CATALOG).financials.roiYears
        = JSNum.posInf := by
  have hsav : totalAnnualSavingsOf 0 0 = 0 := by norm_num [totalAnnualSavingsOf]
  have hreq : requiredInverterSizeOf [⟨100, 1, 6⟩] = 84 := by
    norm_num [requiredInverterSizeOf, designedPeakLoadOf, peakWattsOf, diversityFactor]
  have hdaily : dailyWhOf [⟨100, 1, 6⟩] = 600 := by norm_num [dailyWhOf]
  have hfi : findInverter DEFAULT_CATALOG 84
      = some ⟨"2", "Growatt Hybrid Inverter (5kVA)", ItemType.inverter, 650000, 5000, "VA"⟩ := by
    norm_num +decide [findInverter, DEFAULT_CATALOG, List.find?, isQualifyingInverter,
      isInverterItem]
  have hfb : findBattery DEFAULT_CATALOG
      = some ⟨"3", "Felicity Lithium Battery (5kWh)", ItemType.battery, 1200000, 5000, "Wh"⟩ := by
    norm_num +decide [findBattery, DEFAULT_CATALOG, List.find?]
  have hfp : findPanel DEFAULT_CATALOG
      = some ⟨"1", "Jinko Solar Tiger Pro (550W)", ItemType.panel, 85000, 550, "W"⟩ := by
    norm_num +decide [findPanel, DEFAULT_CATALOG, List.find?]
  have hfinst : findInstallation DEFAULT_CATALOG
      = some ⟨"4", "Mounting & Install Kit", ItemType.installation, 150000, 1, "Lot"⟩ := by
    norm_num +decide [findInstallation, DEFAULT_CATALOG, List.find?]
  have hic : inverterCountOf [⟨100, 1, 6⟩] DEFAULT_CATALOG = 1 := by
    unfold inverterCountOf invDivisor
    rw [hreq, hfi]
    norm_num [specOr, jsOr, Int.ceil_eq_iff]
  have hbc : batteryCountOf [⟨100, 1, 6⟩] DEFAULT_CATALOG = 1 := by
    unfold batteryCountOf batDivisor requiredStorageWhOf
    rw [hdaily, hfb]
    norm_num [specOr, jsOr, Int.ceil_eq_iff]
  have hpc : panelCountOf [⟨100, 1, 6⟩] DEFAULT_CATALOG = 1 := by
    unfold panelCountOf panDivisor requiredPanelPowerOf
    rw [hdaily, hfp]
    norm_num [specOr, jsOr, Int.ceil_eq_iff]
  have htc : totalCostOf [⟨100, 1, 6⟩] DEFAULT_CATALOG = 2085000 := by
    unfold totalCostOf equipmentCostOf installCostOf
    rw [hic, hbc, hpc, hreq, hfi, hfb, hfp, hfinst]
    norm_num [priceOf, jsOr]
  refine ⟨hsav, ?_, ?_⟩
  · show 0 < totalCostOf [⟨100, 1, 6⟩] DEFAULT_CATALOG
    rw [htc]
    norm_num
  · show jsDiv (totalCostOf [⟨100, 1, 6⟩] DEFAULT_CATALOG) (totalAnnualSavingsOf 0 0)
      = JSNum.posInf
    rw [htc, hsav]
    norm_num [jsDiv]

/-- Claim C2, counterexample: with a 10 kVA inverter listed before a 6 kVA
inverter and a requirement of exactly 6000 VA, both qualify but the engine
picks the first in catalog order (spec 10000), not the lowest-spec
qualifying one (spec 6000). -/
theorem c2_counterexample_not_lowest_spec :
    requiredInverterSizeOf demand6000 = 6000
      ∧ (calculateSolarSystem 0 0 demand6000 cexSelectionCatalog).system.inverter
        = some ⟨"A", "Inverter A (10kVA)", ItemType.inverter, 1, 10000, "VA"⟩
      ∧ (⟨"B", "Inverter B (6kVA)", ItemType.inverter, 1, 6000, "VA"⟩ : CatalogItem)
          ∈ cexSelectionCatalog
      ∧ (⟨"B", "Inverter B (6kVA)", ItemType.inverter, 1, 6000, "VA"⟩ : CatalogItem).type
        = ItemType.inverter
      ∧ requiredInverterSizeOf demand6000
        ≤ (⟨"B", "Inverter B (6kVA)", ItemType.inverter, 1, 6000, "VA"⟩ : CatalogItem).spec
      ∧ (⟨"B", "Inverter B (6kVA)", ItemType.inverter, 1, 6000, "VA"⟩ : CatalogItem).spec
        < (⟨"A", "Inverter A (10kVA)", ItemType.inverter, 1, 10000, "VA"⟩ : CatalogItem).spec := by
  have hreq : requiredInverterSizeOf demand6000 = 6000 := by
    norm_num [requiredInverterSizeOf, designedPeakLoadOf, peakWattsOf, diversityFactor,
      demand6000]
  refine ⟨hreq, ?_, by decide, by decide, ?_, by norm_num⟩
  · show findInverter cexSelectionCatalog (requiredInverterSizeOf demand6000)
      = some ⟨"A", "Inverter A (10kVA)", ItemType.inverter, 1, 10000, "VA"⟩
    rw [hreq]
    norm_num +decide [findInverter, cexSelectionCatalog, List.find?, isQualifyingInverter,
      isInverterItem]
  · rw [hreq]

/-- Claim C2 as amended: the chosen inverter is the first (in catalog
order) inverter item whose spec is at least the requirement; if none
qualifies, the first inverter item present; if no inverter item exists,
the count divisor falls back to 5000 and the price contribution to 0. -/
theorem c2_amended_first_qualifying (bill fuel : ℚ) (apps : List SelectedAppliance)
    (cat : List CatalogItem) :
    ((calculateSolarSystem bill fuel apps cat).system.inverter
        = match firstQualifyingInverter cat (requiredInverterSizeOf apps) with
          | some i => some i
          | none => firstInverterItem cat)
      ∧ ((∀ i ∈ cat, i.type ≠ ItemType.inverter) →
          (calculateSolarSystem bill fuel apps cat).system.inverter = none
            ∧ invDivisor cat (requiredInverterSizeOf apps) = 5000
            ∧ priceOf ((calculateSolarSystem bill fuel apps cat).system.inverter) = 0) := by
  constructor
  · show findInverter cat (requiredInverterSizeOf apps) = _
    unfold findInverter
    rw [find?_isQualifyingInverter_eq, find?_isInverterItem_eq]
  · intro h
    have hq : cat.find? (isQualifyingInverter (requiredInverterSizeOf apps)) = none := by
      rw [List.find?_eq_none]
      intro x hx
      rw [isQualifyingInverter_eq_true]
      rintro ⟨hxt, -⟩
      exact h x hx hxt
    have hi : cat.find? isInverterItem = none := by
      rw [List.find?_eq_none]
      intro x hx
      rw [isInverterItem_eq_true]
      exact h x hx
    have hfind : findInverter cat (requiredInverterSizeOf apps) = none := by
      unfold findInverter
      rw [hq, hi]
    refine ⟨hfind, ?_, ?_⟩
    · unfold invDivisor
      rw [hfind]
      rfl
    · show priceOf (findInverter cat (requiredInverterSizeOf apps)) = 0
      rw [hfind]
      rfl

/-- Witness for the amended inverter-selection claim: on a catalog holding
only an installation item, the engine selects no inverter and falls back
to divisor 5000 and price 0. -/
theorem c2_amended_first_qualifying_witness :
    ((calculateSolarSystem 0 0 []
          [⟨"4", "Mounting & Install Kit", ItemType.installation, 150000, 1, "Lot"⟩]).system.inverter
        = none)
      ∧ invDivisor [⟨"4", "Mounting & Install Kit", ItemType.installation, 150000, 1, "Lot"⟩]
          (requiredInverterSizeOf []) = 5000
      ∧ priceOf ((calculateSolarSystem 0 0 []
          [⟨"4", "Mounting & Install Kit", ItemType.installation, 150000, 1, "Lot"⟩]).system.inverter)
        = 0 :=
  (c2_amended_first_qualifying 0 0 []
    [⟨"4", "Mounting & Install Kit", ItemType.installation, 150000, 1, "Lot"⟩]).2 (by decide)

/-- Claim C3, counterexample: increasing the single appliance's count from
1 to 2 moves the required inverter size from 1680 VA to 3360 VA, which
switches selection from the small expensive inverter to the big cheap one,
and the total cost drops from 1 150 000 to 250 000. -/
theorem c3_counterexample_cost_drops :
    (⟨2000, 1, 1⟩ : SelectedAppliance).count < (⟨2000, 2, 1⟩ : SelectedAppliance).count
      ∧ (calculateSolarSystem 0 0 [⟨2000, 2, 1⟩] cexMonotoneCatalog).financials.totalCost
        < (calculateSolarSystem 0 0 [⟨2000, 1, 1⟩] cexMonotoneCatalog).financials.totalCost := by
  have hreq1 : requiredInverterSizeOf [⟨2000, 1, 1⟩] = 1680 := by
    norm_num [requiredInverterSizeOf, designedPeakLoadOf, peakWattsOf, diversityFactor]
  have hreq2 : requiredInverterSizeOf [⟨2000, 2, 1⟩] = 3360 := by
    norm_num [requiredInverterSizeOf, designedPeakLoadOf, peakWattsOf, diversityFactor]
  have hdaily1 : dailyWhOf [⟨2000, 1, 1⟩] = 2000 := by norm_num [dailyWhOf]
  have hdaily2 : dailyWhOf [⟨2000, 2, 1⟩] = 4000 := by norm_num [dailyWhOf]
  have hfi1 : findInverter cexMonotoneCatalog 1680
      = some ⟨"1", "Small inverter (2kVA)", ItemType.inverter, 1000000, 2000, "VA"⟩ := by
    norm_num +decide [findInverter, cexMonotoneCatalog, List.find?, isQualifyingInverter,
      isInverterItem]
  have hfi2 : findInverter cexMonotoneCatalog 3360
      = some ⟨"2", "Big inverter (5kVA)", ItemType.inverter, 100000, 5000, "VA"⟩ := by
    norm_num +decide [findInverter, cexMonotoneCatalog, List.find?, isQualifyingInverter,
      isInverterItem]
  have hfb : findBattery cexMonotoneCatalog = none := by
    norm_num +decide [findBattery, cexMonotoneCatalog, List.find?]
  have hfp : findPanel cexMonotoneCatalog = none := by
    norm_num +decide [findPanel, cexMonotoneCatalog, List.find?]
  have hfinst : findInstallation cexMonotoneCatalog = none := by
    norm_num +decide [findInstallation, cexMonotoneCatalog, List.find?]
  have hic1 : inverterCountOf [⟨2000, 1, 1⟩] cexMonotoneCatalog = 1 := by
    unfold inverterCountOf invDivisor
    rw [hreq1, hfi1]
    norm_num [specOr, jsOr, Int.ceil_eq_iff]
  have hic2 : inverterCountOf [⟨2000, 2, 1⟩] cexMonotoneCatalog = 1 := by
    unfold inverterCountOf invDivisor
    rw [hreq2, hfi2]
    norm_num [specOr, jsOr, Int.ceil_eq_iff]
  have hbc1 : batteryCountOf [⟨2000, 1, 1⟩] cexMonotoneCatalog = 1 := by
    unfold batteryCountOf batDivisor requiredStorageWhOf
    rw [hdaily1, hfb]
    norm_num [specOr, jsOr, Int.ceil_eq_iff]
  have hbc2 : batteryCountOf [⟨2000, 2, 1⟩] cexMonotoneCatalog = 1 := by
    unfold batteryCountOf batDivisor requiredStorageWhOf
    rw [hdaily2, hfb]
    norm_num [specOr, jsOr, Int.ceil_eq_iff]
  have hpc1 : panelCountOf [⟨2000, 1, 1⟩] cexMonotoneCatalog = 2 := by
    unfold panelCountOf panDivisor requiredPanelPowerOf
    rw [hdaily1, hfp]
    norm_num [specOr, jsOr, Int.ceil_eq_iff]
  have hpc2 : panelCountOf [⟨2000, 2, 1⟩] cexMonotoneCatalog = 3 := by
    unfold panelCountOf panDivisor requiredPanelPowerOf
    rw [hdaily2, hfp]
    norm_num [specOr, jsOr, Int.ceil_eq_iff]
  have htc1 : totalCostOf [⟨2000, 1, 1⟩] cexMonotoneCatalog = 1150000 := by
    unfold totalCostOf equipmentCostOf installCostOf
    rw [hic1, hbc1, hpc1, hreq1, hfi1, hfb, hfp, hfinst]
    norm_num [priceOf]
  have htc2 : totalCostOf [⟨2000, 2, 1⟩] cexMonotoneCatalog = 250000 := by
    unfold totalCostOf equipmentCostOf installCostOf
    rw [hic2, hbc2, hpc2, hreq2, hfi2, hfb, hfp, hfinst]
    norm_num [priceOf]
  constructor
  · norm_num
  · show totalCostOf [⟨2000, 2, 1⟩] cexMonotoneCatalog
      < totalCostOf [⟨2000, 1, 1⟩] cexMonotoneCatalog
    rw [htc1, htc2]
    norm_num

/-- Claim C3 as amended: increasing a single appliance's count or hours
(all other inputs fixed, non-negative entries) never decreases the daily
energy, the raw peak load, or the designed peak load; the total cost is
excluded, since the inverter re-selection can lower it. -/
theorem c3_amended_monotone (bill fuel : ℚ) (cat : List CatalogItem)
    (pre suf : List SelectedAppliance) (a a' : SelectedAppliance)
    (hwatts : a'.watts = a.watts) (hw0 : 0 ≤ a.watts)
    (hcount : a.count ≤ a'.count) (hc0 : 0 ≤ a.count)
    (hhours : a.hours ≤ a'.hours) (hh0 : 0 ≤ a.hours) :
    (calculateSolarSystem bill fuel (pre ++ a :: suf) cat).details.dailyWh
        ≤ (calculateSolarSystem bill fuel (pre ++ a' :: suf) cat).details.dailyWh
      ∧ peakWattsOf (pre ++ a :: suf) ≤ peakWattsOf (pre ++ a' :: suf)
      ∧ (calculateSolarSystem bill fuel (pre ++ a :: suf) cat).details.designedPeakLoad
        ≤ (calculateSolarSystem bill fuel (pre ++ a' :: suf) cat).details.designedPeakLoad := by
  have hdaily : dailyWhOf (pre ++ a :: suf) ≤ dailyWhOf (pre ++ a' :: suf) := by
    rw [dailyWhOf_eq_sum, dailyWhOf_eq_sum, List.map_append, List.map_append,
      List.sum_append, List.sum_append, List.map_cons, List.map_cons,
      List.sum_cons, List.sum_cons]
    have key : a.watts * a.count * a.hours ≤ a'.watts * a'.count * a'.hours := by
      rw [hwatts, mul_assoc, mul_assoc]
      refine mul_le_mul_of_nonneg_left ?_ hw0
      exact mul_le_mul hcount hhours hh0 (le_trans hc0 hcount)
    linarith
  have hpeak : peakWattsOf (pre ++ a :: suf) ≤ peakWattsOf (pre ++ a' :: suf) := by
    rw [peakWattsOf_eq_sum, peakWattsOf_eq_sum, List.map_append, List.map_append,
      List.sum_append, List.sum_append, List.map_cons, List.map_cons,
      List.sum_cons, List.sum_cons]
    have key : a.watts * a.count ≤ a'.watts * a'.count := by
      rw [hwatts]
      exact mul_le_mul_of_nonneg_left hcount hw0
    linarith
  refine ⟨hdaily, hpeak, ?_⟩
  show designedPeakLoadOf (pre ++ a :: suf) ≤ designedPeakLoadOf (pre ++ a' :: suf)
  unfold designedPeakLoadOf
  have hdf : (0 : ℚ) ≤ diversityFactor := by norm_num [diversityFactor]
  exact mul_le_mul_of_nonneg_right hpeak hdf

/-- Witness for the amended monotonicity claim at a concrete input. -/
theorem c3_amended_monotone_witness :
    (calculateSolarSystem 0 0 ([] ++ (⟨1, 1, 1⟩ : SelectedAppliance) :: []) []).details.dailyWh
        ≤ (calculateSolarSystem 0 0 ([] ++ (⟨1, 2, 2⟩ : SelectedAppliance) :: []) []).details.dailyWh
      ∧ peakWattsOf ([] ++ (⟨1, 1, 1⟩ : SelectedAppliance) :: [])
        ≤ peakWattsOf ([] ++ (⟨1, 2, 2⟩ : SelectedAppliance) :: [])
      ∧ (calculateSolarSystem 0 0 ([] ++ (⟨1, 1, 1⟩ : SelectedAppliance) :: [])
            []).details.designedPeakLoad
        ≤ (calculateSolarSystem 0 0 ([] ++ (⟨1, 2, 2⟩ : SelectedAppliance) :: [])
            []).details.designedPeakLoad :=
  c3_amended_monotone 0 0 [] [] [] ⟨1, 1, 1⟩ ⟨1, 2, 2⟩ rfl (by norm_num) (by norm_num)
    (by norm_num) (by norm_num) (by norm_num)

/-- Claim C4: under non-negative appliance entries and catalog specs, all
three counts are non-negative integers, they are all at least 1 as soon as
one appliance has positive wattage, count and hours, and the total cost is
exactly the sum of count times unit price over the three equipment kinds
plus the installation cost. -/
theorem c4_counts_and_exact_cost (bill fuel : ℚ) (apps : List SelectedAppliance)
    (cat : List CatalogItem)
    (happ : ∀ a ∈ apps, 0 ≤ a.watts ∧ 0 ≤ a.count ∧ 0 ≤ a.hours)
    (hcat : ∀ i ∈ cat, 0 ≤ i.spec) :
    (0 ≤ (calculateSolarSystem bill fuel apps cat).system.inverterCount
        ∧ 0 ≤ (calculateSolarSystem bill fuel apps cat).system.batteryCount
        ∧ 0 ≤ (calculateSolarSystem bill fuel apps cat).system.panelCount)
      ∧ ((∃ a ∈ apps, 0 < a.watts ∧ 0 < a.count ∧ 0 < a.hours) →
          1 ≤ (calculateSolarSystem bill fuel apps cat).system.inverterCount
            ∧ 1 ≤ (calculateSolarSystem bill fuel apps cat).system.batteryCount
            ∧ 1 ≤ (calculateSolarSystem bill fuel apps cat).system.panelCount)
      ∧ (calculateSolarSystem bill fuel apps cat).financials.totalCost
        = ((calculateSolarSystem bill fuel apps cat).system.inverterCount : ℚ)
              * priceOf ((calculateSolarSystem bill fuel apps cat).system.inverter)
            + ((calculateSolarSystem bill fuel apps cat).system.batteryCount : ℚ)
              * priceOf ((calculateSolarSystem bill fuel apps cat).system.battery)
            + ((calculateSolarSystem bill fuel apps cat).system.panelCount : ℚ)
              * priceOf ((calculateSolarSystem bill fuel apps cat).system.panel)
            + installCostOf cat := by
  have hpeak0 : 0 ≤ peakWattsOf apps := peakWattsOf_nonneg happ
  have hdaily0 : 0 ≤ dailyWhOf apps := dailyWhOf_nonneg happ
  have hdf : (0 : ℚ) ≤ diversityFactor := by norm_num [diversityFactor]
  have hreq0 : 0 ≤ requiredInverterSizeOf apps := by
    unfold requiredInverterSizeOf designedPeakLoadOf
    have h12 : (0 : ℚ) ≤ 1.2 := by norm_num
    exact mul_nonneg (mul_nonneg hpeak0 hdf) h12
  have hsto0 : 0 ≤ requiredStorageWhOf apps := by
    unfold requiredStorageWhOf
    have h06 : (0 : ℚ) ≤ 0.6 := by norm_num
    exact mul_nonneg hdaily0 h06
  have hpan0 : 0 ≤ requiredPanelPowerOf apps := by
    unfold requiredPanelPowerOf
    have h13 : (0 : ℚ) ≤ 1.3 := by norm_num
    exact mul_nonneg (div_nonneg hdaily0 (by norm_num)) h13
  have hinvd : 0 < invDivisor cat (requiredInverterSizeOf apps) := invDivisor_pos _ hcat
  have hbatd : 0 < batDivisor cat := batDivisor_pos hcat
  have hpand : 0 < panDivisor cat := panDivisor_pos hcat
  refine ⟨⟨?_, ?_, ?_⟩, ?_, ?_⟩
  · exact Int.ceil_nonneg (div_nonneg hreq0 hinvd.le)
  · exact Int.ceil_nonneg (div_nonneg hsto0 hbatd.le)
  · exact Int.ceil_nonneg (div_nonneg hpan0 hpand.le)
  · rintro ⟨a, ha, hw, hc, hh⟩
    have hpeak1 : 0 < peakWattsOf apps := peakWattsOf_pos happ ha hw hc
    have hdaily1 : 0 < dailyWhOf apps := dailyWhOf_pos happ ha hw hc hh
    have hreq1 : 0 < requiredInverterSizeOf apps := by
      unfold requiredInverterSizeOf designedPeakLoadOf diversityFactor
      have := hpeak1
      positivity
    have hsto1 : 0 < requiredStorageWhOf apps := by
      unfold requiredStorageWhOf
      positivity
    have hpan1 : 0 < requiredPanelPowerOf apps := by
      unfold requiredPanelPowerOf
      positivity
    have h1 := Int.ceil_pos.mpr (div_pos hreq1 hinvd)
    have h2 := Int.ceil_pos.mpr (div_pos hsto1 hbatd)
    have h3 := Int.ceil_pos.mpr (div_pos hpan1 hpand)
    refine ⟨?_, ?_, ?_⟩
    · show 1 ≤ inverterCountOf apps cat
      unfold inverterCountOf
      omega
    · show 1 ≤ batteryCountOf apps cat
      unfold batteryCountOf
      omega
    · show 1 ≤ panelCountOf apps cat
      unfold panelCountOf
      omega
  · rfl

/-- Witness for the counts-and-cost claim at a concrete input with demand. -/
theorem c4_counts_and_exact_cost_witness :
    (∀ a ∈ ([⟨100, 1, 6⟩] : List SelectedAppliance), 0 ≤ a.watts ∧ 0 ≤ a.count ∧ 0 ≤ a.hours)
      ∧ (∀ i ∈ DEFAULT_CATALOG, 0 ≤ i.spec)
      ∧ ((0 ≤ (calculateSolarSystem 50000 30000 [⟨100, 1, 6⟩] DEFAULT_CATALOG).system.inverterCount
            ∧ 0 ≤ (calculateSolarSystem 50000 30000 [⟨100, 1, 6⟩] DEFAULT_CATALOG).system.batteryCount
            ∧ 0 ≤ (calculateSolarSystem 50000 30000 [⟨100, 1, 6⟩] DEFAULT_CATALOG).system.panelCount)
          ∧ ((∃ a ∈ ([⟨100, 1, 6⟩] : List SelectedAppliance),
                0 < a.watts ∧ 0 < a.count ∧ 0 < a.hours) →
              1 ≤ (calculateSolarSystem 50000 30000 [⟨100, 1, 6⟩] DEFAULT_CATALOG).system.inverterCount
                ∧ 1 ≤ (calculateSolarSystem 50000 30000 [⟨100, 1, 6⟩] DEFAULT_CATALOG).system.batteryCount
                ∧ 1 ≤ (calculateSolarSystem 50000 30000 [⟨100, 1, 6⟩] DEFAULT_CATALOG).system.panelCount)
          ∧ (calculateSolarSystem 50000 30000 [⟨100, 1, 6⟩] DEFAULT_CATALOG).financials.totalCost
            = ((calculateSolarSystem 50000 30000 [⟨100, 1, 6⟩] DEFAULT_CATALOG).system.inverterCount : ℚ)
                  * priceOf ((calculateSolarSystem 50000 30000 [⟨100, 1, 6⟩] DEFAULT_CATALOG).system.inverter)
                + ((calculateSolarSystem 50000 30000 [⟨100, 1, 6⟩] DEFAULT_CATALOG).system.batteryCount : ℚ)
                  * priceOf ((calculateSolarSystem 50000 30000 [⟨100, 1, 6⟩] DEFAULT_CATALOG).system.battery)
                + ((calculateSolarSystem 50000 30000 [⟨100, 1, 6⟩] DEFAULT_CATALOG).system.panelCount : ℚ)
                  * priceOf ((calculateSolarSystem 50000 30000 [⟨100, 1, 6⟩] DEFAULT_CATALOG).system.panel)
                + installCostOf DEFAULT_CATALOG) :=
  ⟨by decide, by decide,
    c4_counts_and_exact_cost 50000 30000 [⟨100, 1, 6⟩] DEFAULT_CATALOG (by decide) (by decide)⟩

/-- Claim C5: whenever some inverter item in the catalog has spec at least
the requirement (and the appliance entries are non-negative, so the
requirement is non-negative), the chosen inverter exists and the chosen
count times its spec covers the requirement. -/
theorem c5_headroom (bill fuel : ℚ) (apps : List SelectedAppliance) (cat : List CatalogItem)
    (happ : ∀ a ∈ apps, 0 ≤ a.watts ∧ 0 ≤ a.count ∧ 0 ≤ a.hours)
    (hex : ∃ i ∈ cat, i.type = ItemType.inverter ∧ requiredInverterSizeOf apps ≤ i.spec) :
    ∃ it, (calculateSolarSystem bill fuel apps cat).system.inverter = some it
      ∧ requiredInverterSizeOf apps
        ≤ ((calculateSolarSystem bill fuel apps cat).system.inverterCount : ℚ) * it.spec := by
  have hreq0 : 0 ≤ requiredInverterSizeOf apps := by
    unfold requiredInverterSizeOf designedPeakLoadOf
    have hdf : (0 : ℚ) ≤ diversityFactor := by norm_num [diversityFactor]
    exact mul_nonneg (mul_nonneg (peakWattsOf_nonneg happ) hdf) (by norm_num)
  obtain ⟨j, hj, hjt, hjs⟩ := hex
  have hsome : (cat.find? (isQualifyingInverter (requiredInverterSizeOf apps))).isSome := by
    rw [List.find?_isSome]
    exact ⟨j, hj, isQualifyingInverter_eq_true.mpr ⟨hjt, hjs⟩⟩
  obtain ⟨it, hit⟩ := Option.isSome_iff_exists.mp hsome
  have hfind : findInverter cat (requiredInverterSizeOf apps) = some it := by
    unfold findInverter
    rw [hit]
  have hq := isQualifyingInverter_eq_true.mp (List.find?_some hit)
  have hspec0 : 0 ≤ it.spec := le_trans hreq0 hq.2
  refine ⟨it, hfind, ?_⟩
  show requiredInverterSizeOf apps ≤ (inverterCountOf apps cat : ℚ) * it.spec
  unfold inverterCountOf invDivisor
  rw [hfind]
  by_cases h0 : it.spec = 0
  · have hz : requiredInverterSizeOf apps = 0 := le_antisymm (h0 ▸ hq.2) hreq0
    rw [hz, h0, mul_zero]
  · have hsp : 0 < it.spec := lt_of_le_of_ne hspec0 (Ne.symm h0)
    have hdiv : specOr (some it) 5000 = it.spec := by
      show jsOr it.spec 5000 = it.spec
      unfold jsOr
      rw [if_neg h0]
    rw [hdiv]
    have hceil : requiredInverterSizeOf apps / it.spec
        ≤ (⌈requiredInverterSizeOf apps / it.spec⌉ : ℚ) := Int.le_ceil _
    calc requiredInverterSizeOf apps
        = requiredInverterSizeOf apps / it.spec * it.spec := by field_simp
      _ ≤ (⌈requiredInverterSizeOf apps / it.spec⌉ : ℚ) * it.spec :=
          mul_le_mul_of_nonneg_right hceil hsp.le

/-- Witness for the headroom claim at a concrete input. -/
theorem c5_headroom_witness :
    (∀ a ∈ ([⟨100, 1, 6⟩] : List SelectedAppliance), 0 ≤ a.watts ∧ 0 ≤ a.count ∧ 0 ≤ a.hours)
      ∧ (∃ i ∈ DEFAULT_CATALOG, i.type = ItemType.inverter
          ∧ requiredInverterSizeOf [⟨100, 1, 6⟩] ≤ i.spec)
      ∧ (∃ it, (calculateSolarSystem 0 0 [⟨100, 1, 6⟩] DEFAULT_CATALOG).system.inverter = some it
          ∧ requiredInverterSizeOf [⟨100, 1, 6⟩]
            ≤ ((calculateSolarSystem 0 0 [⟨100, 1, 6⟩] DEFAULT_CATALOG).system.inverterCount : ℚ)
                * it.spec) := by
  have hreq : requiredInverterSizeOf [⟨100, 1, 6⟩] = 84 := by
    norm_num [requiredInverterSizeOf, designedPeakLoadOf, peakWattsOf, diversityFactor]
  have hex : ∃ i ∈ DEFAULT_CATALOG, i.type = ItemType.inverter
      ∧ requiredInverterSizeOf [⟨100, 1, 6⟩] ≤ i.spec := by
    refine ⟨⟨"2", "Growatt Hybrid Inverter (5kVA)", ItemType.inverter, 650000, 5000, "VA"⟩,
      by decide, by decide, ?_⟩
    rw [hreq]
    norm_num
  exact ⟨by decide, hex, c5_headroom 0 0 [⟨100, 1, 6⟩] DEFAULT_CATALOG (by decide) hex⟩

/-- Claim C6: the engine is total.  The variant whose count-pipeline
divisions are all explicitly checked never returns `none` and agrees with
the plain engine on every input — the `|| default` guards keep every count
divisor nonzero, and the payback division is absorbed into a JavaScript
value rather than a failure. -/
theorem c6_total_function (monthlyBill fuelCost : ℚ) (appliances : List SelectedAppliance)
    (catalog : List CatalogItem) :
    calculateSolarSystemChecked monthlyBill fuelCost appliances catalog
      = some (calculateSolarSystem monthlyBill fuelCost appliances catalog) := by
  have h45 : (4.5 : ℚ) ≠ 0 := by norm_num
  simp only [calculateSolarSystemChecked,
    checkedDiv_of_ne (invDivisor_ne_zero catalog (requiredInverterSizeOf appliances)),
    checkedDiv_of_ne (batDivisor_ne_zero catalog), checkedDiv_of_ne h45,
    checkedDiv_of_ne (panDivisor_ne_zero catalog), Option.bind_eq_bind', Option.some_bind]
  rfl

/-- Claim C7: the engine's daily energy equals the sum of
`watts*count*hours` over the list, and any permutation of the appliance
list yields the same daily energy. -/
theorem c7_daily_energy_sum_perm (bill fuel : ℚ) (cat : List CatalogItem)
    (l l' : List SelectedAppliance) (h : l.Perm l') :
    (calculateSolarSystem bill fuel l cat).details.dailyWh
        = (l.map fun a => a.watts * a.count * a.hours).sum
      ∧ (calculateSolarSystem bill fuel l cat).details.dailyWh
        = (calculateSolarSystem bill fuel l' cat).details.dailyWh := by
  constructor
  · exact dailyWhOf_eq_sum l
  · show dailyWhOf l = dailyWhOf l'
    rw [dailyWhOf_eq_sum, dailyWhOf_eq_sum]
    exact (h.map fun a => a.watts * a.count * a.hours).sum_eq

/-- Witness for the daily-energy permutation claim at a concrete input. -/
theorem c7_daily_energy_sum_perm_witness :
    ([⟨100, 2, 3⟩, ⟨50, 1, 4⟩] : List SelectedAppliance).Perm [⟨50, 1, 4⟩, ⟨100, 2, 3⟩]
      ∧ ((calculateSolarSystem 1 1 [⟨100, 2, 3⟩, ⟨50, 1, 4⟩] DEFAULT_CATALOG).details.dailyWh
          = (([⟨100, 2, 3⟩, ⟨50, 1, 4⟩] : List SelectedAppliance).map
              fun a => a.watts * a.count * a.hours).sum
        ∧ (calculateSolarSystem 1 1 [⟨100, 2, 3⟩, ⟨50, 1, 4⟩] DEFAULT_CATALOG).details.dailyWh
          = (calculateSolarSystem 1 1 [⟨50, 1, 4⟩, ⟨100, 2, 3⟩] DEFAULT_CATALOG).details.dailyWh) :=
  ⟨by decide,
    c7_daily_energy_sum_perm 1 1 DEFAULT_CATALOG [⟨100, 2, 3⟩, ⟨50, 1, 4⟩]
      [⟨50, 1, 4⟩, ⟨100, 2, 3⟩] (by decide)⟩

/-- Claim C8, spec scenario 3: with a single 5000 VA inverter in the
catalog and a demand requiring exactly 6000 VA, no inverter qualifies, the
engine falls back to the one present, and the inverter count is
`ceil(6000/5000) = 2`. -/
theorem c8_scenario3_fallback_count :
    requiredInverterSizeOf demand6000 = 6000
      ∧ scenario3Catalog.find? (isQualifyingInverter (requiredInverterSizeOf demand6000)) = none
      ∧ (calculateSolarSystem 0 0 demand6000 scenario3Catalog).system.inverter
        = some ⟨"2", "Growatt Hybrid Inverter (5kVA)", ItemType.inverter, 650000, 5000, "VA"⟩
      ∧ (calculateSolarSystem 0 0 demand6000 scenario3Catalog).system.inverterCount = 2 := by
  have hreq : requiredInverterSizeOf demand6000 = 6000 := by
    norm_num [requiredInverterSizeOf, designedPeakLoadOf, peakWattsOf, diversityFactor,
      demand6000]
  have hnone : scenario3Catalog.find? (isQualifyingInverter 6000) = none := by
    norm_num +decide [scenario3Catalog, List.find?, isQualifyingInverter]
  have hfi : findInverter scenario3Catalog 6000
      = some ⟨"2", "Growatt Hybrid Inverter (5kVA)", ItemType.inverter, 650000, 5000, "VA"⟩ := by
    norm_num +decide [findInverter, scenario3Catalog, List.find?, isQualifyingInverter,
      isInverterItem]
  refine ⟨hreq, ?_, ?_, ?_⟩
  · rw [hreq]
    exact hnone
  · show findInverter scenario3Catalog (requiredInverterSizeOf demand6000) = _
    rw [hreq]
    exact hfi
  · show inverterCountOf demand6000 scenario3Catalog = 2
    unfold inverterCountOf invDivisor
    rw [hreq, hfi]
    norm_num [specOr, jsOr, Int.ceil_eq_iff]

/-- Claim C9: the divisors of the three count divisions are never zero
(a present item with spec 0 falls back to the default spec, exactly like a
missing item), and they are strictly positive whenever catalog specs are
non-negative. -/
theorem c9_divisor_guards (cat : List CatalogItem) (req : ℚ) :
    (invDivisor cat req ≠ 0 ∧ batDivisor cat ≠ 0 ∧ panDivisor cat ≠ 0)
      ∧ ((∀ i ∈ cat, 0 ≤ i.spec) →
          0 < invDivisor cat req ∧ 0 < batDivisor cat ∧ 0 < panDivisor cat)
      ∧ (∀ it, findInverter cat req = some it → it.spec = 0 → invDivisor cat req = 5000)
      ∧ (∀ it, findBattery cat = some it → it.spec = 0 → batDivisor cat = 4800)
      ∧ (∀ it, findPanel cat = some it → it.spec = 0 → panDivisor cat = 550) := by
  refine ⟨⟨invDivisor_ne_zero cat req, batDivisor_ne_zero cat, panDivisor_ne_zero cat⟩,
    fun h => ⟨invDivisor_pos req h, batDivisor_pos h, panDivisor_pos h⟩, ?_, ?_, ?_⟩
  · intro it hit h0
    unfold invDivisor
    rw [hit]
    show jsOr it.spec 5000 = 5000
    rw [h0]
    simp [jsOr]
  · intro it hit h0
    unfold batDivisor
    rw [hit]
    show jsOr it.spec 4800 = 4800
    rw [h0]
    simp [jsOr]
  · intro it hit h0
    unfold panDivisor
    rw [hit]
    show jsOr it.spec 550 = 550
    rw [h0]
    simp [jsOr]

/-- Witness for the zero-divisor-guard claim: a catalog whose inverter,
battery and panel items all have spec 0 still produces the default
divisors 5000, 4800 and 550. -/
theorem c9_divisor_guards_witness :
    (∀ i ∈ ([⟨"z1", "Zero inverter", ItemType.inverter, 0, 0, "VA"⟩,
        ⟨"z2", "Zero battery", ItemType.battery, 0, 0, "Wh"⟩,
        ⟨"z3", "Zero panel", ItemType.panel, 0, 0, "W"⟩] : List CatalogItem), 0 ≤ i.spec)
      ∧ invDivisor [⟨"z1", "Zero inverter", ItemType.inverter, 0, 0, "VA"⟩,
          ⟨"z2", "Zero battery", ItemType.battery, 0, 0, "Wh"⟩,
          ⟨"z3", "Zero panel", ItemType.panel, 0, 0, "W"⟩] 0 = 5000
      ∧ batDivisor [⟨"z1", "Zero inverter", ItemType.inverter, 0, 0, "VA"⟩,
          ⟨"z2", "Zero battery", ItemType.battery, 0, 0, "Wh"⟩,
          ⟨"z3", "Zero panel", ItemType.panel, 0, 0, "W"⟩] = 4800
      ∧ panDivisor [⟨"z1", "Zero inverter", ItemType.inverter, 0, 0, "VA"⟩,
          ⟨"z2", "Zero battery", ItemType.battery, 0, 0, "Wh"⟩,
          ⟨"z3", "Zero panel", ItemType.panel, 0, 0, "W"⟩] = 550 := by
  have hfi : findInverter [⟨"z1", "Zero inverter", ItemType.inverter, 0, 0, "VA"⟩,
      ⟨"z2", "Zero battery", ItemType.battery, 0, 0, "Wh"⟩,
      ⟨"z3", "Zero panel", ItemType.panel, 0, 0, "W"⟩] 0
      = some ⟨"z1", "Zero inverter", ItemType.inverter, 0, 0, "VA"⟩ := by
    norm_num +decide [findInverter, List.find?, isQualifyingInverter, isInverterItem]
  have hfb : findBattery [⟨"z1", "Zero inverter", ItemType.inverter, 0, 0, "VA"⟩,
      ⟨"z2", "Zero battery", ItemType.battery, 0, 0, "Wh"⟩,
      ⟨"z3", "Zero panel", ItemType.panel, 0, 0, "W"⟩]
      = some ⟨"z2", "Zero battery", ItemType.battery, 0, 0, "Wh"⟩ := by
    norm_num +decide [findBattery, List.find?]
  have hfp : findPanel [⟨"z1", "Zero inverter", ItemType.inverter, 0, 0, "VA"⟩,
      ⟨"z2", "Zero battery", ItemType.battery, 0, 0, "Wh"⟩,
      ⟨"z3", "Zero panel", ItemType.panel, 0, 0, "W"⟩]
      = some ⟨"z3", "Zero panel", ItemType.panel, 0, 0, "W"⟩ := by
    norm_num +decide [findPanel, List.find?]
  refine ⟨by decide, ?_, ?_, ?_⟩
  · exact (c9_divisor_guards _ 0).2.2.1 _ hfi rfl
  · exact (c9_divisor_guards _ 0).2.2.2.1 _ hfb rfl
  · exact (c9_divisor_guards _ 0).2.2.2.2 _ hfp rfl

/-- Claim C10: when the catalog lacks a kind, the corresponding chosen-item
reference in the result is `none`, while the count is still computed from
the fallback spec and the price contribution is zero. -/
theorem c10_missing_kind_fallbacks (bill fuel : ℚ) (apps : List SelectedAppliance)
    (cat : List CatalogItem) :
    ((∀ i ∈ cat, i.type ≠ ItemType.inverter) →
        (calculateSolarSystem bill fuel apps cat).system.inverter = none
          ∧ (calculateSolarSystem bill fuel apps cat).system.inverterCount
            = ⌈requiredInverterSizeOf apps / 5000⌉
          ∧ priceOf ((calculateSolarSystem bill fuel apps cat).system.inverter) = 0)
      ∧ ((∀ i ∈ cat, i.type ≠ ItemType.battery) →
          (calculateSolarSystem bill fuel apps cat).system.battery = none
            ∧ (calculateSolarSystem bill fuel apps cat).system.batteryCount
              = ⌈requiredStorageWhOf apps / 4800⌉
            ∧ priceOf ((calculateSolarSystem bill fuel apps cat).system.battery) = 0)
      ∧ ((∀ i ∈ cat, i.type ≠ ItemType.panel) →
          (calculateSolarSystem bill fuel apps cat).system.panel = none
            ∧ (calculateSolarSystem bill fuel apps cat).system.panelCount
              = ⌈requiredPanelPowerOf apps / 550⌉
            ∧ priceOf ((calculateSolarSystem bill fuel apps cat).system.panel) = 0) := by
  refine ⟨?_, ?_, ?_⟩
  · intro h
    have hq : cat.find? (isQualifyingInverter (requiredInverterSizeOf apps)) = none := by
      rw [List.find?_eq_none]
      intro x hx
      rw [isQualifyingInverter_eq_true]
      rintro ⟨hxt, -⟩
      exact h x hx hxt
    have hi : cat.find? isInverterItem = none := by
      rw [List.find?_eq_none]
      intro x hx
      rw [isInverterItem_eq_true]
      exact h x hx
    have hfind : findInverter cat (requiredInverterSizeOf apps) = none := by
      unfold findInverter
      rw [hq, hi]
    refine ⟨hfind, ?_, ?_⟩
    · show inverterCountOf apps cat = ⌈requiredInverterSizeOf apps / 5000⌉
      unfold inverterCountOf invDivisor
      rw [hfind]
      rfl
    · show priceOf (findInverter cat (requiredInverterSizeOf apps)) = 0
      rw [hfind]
      rfl
  · intro h
    have hfind : findBattery cat = none := by
      unfold findBattery
      rw [List.find?_eq_none]
      intro x hx
      simpa using h x hx
    refine ⟨hfind, ?_, ?_⟩
    · show batteryCountOf apps cat = ⌈requiredStorageWhOf apps / 4800⌉
      unfold batteryCountOf batDivisor
      rw [hfind]
      rfl
    · show priceOf (findBattery cat) = 0
      rw [hfind]
      rfl
  · intro h
    have hfind : findPanel cat = none := by
      unfold findPanel
      rw [List.find?_eq_none]
      intro x hx
      simpa using h x hx
    refine ⟨hfind, ?_, ?_⟩
    · show panelCountOf apps cat = ⌈requiredPanelPowerOf apps / 550⌉
      unfold panelCountOf panDivisor
      rw [hfind]
      rfl
    · show priceOf (findPanel cat) = 0
      rw [hfind]
      rfl

/-- Witness for the missing-kind claim on the empty catalog. -/
theorem c10_missing_kind_fallbacks_witness :
    ((calculateSolarSystem 0 0 [⟨100, 1, 6⟩] []).system.inverter = none
        ∧ (calculateSolarSystem 0 0 [⟨100, 1, 6⟩] []).system.inverterCount
          = ⌈requiredInverterSizeOf [⟨100, 1, 6⟩] / 5000⌉
        ∧ priceOf ((calculateSolarSystem 0 0 [⟨100, 1, 6⟩] []).system.inverter) = 0)
      ∧ ((calculateSolarSystem 0 0 [⟨100, 1, 6⟩] []).system.battery = none
        ∧ (calculateSolarSystem 0 0 [⟨100, 1, 6⟩] []).system.batteryCount
          = ⌈requiredStorageWhOf [⟨100, 1, 6⟩] / 4800⌉
        ∧ priceOf ((calculateSolarSystem 0 0 [⟨100, 1, 6⟩] []).system.battery) = 0)
      ∧ ((calculateSolarSystem 0 0 [⟨100, 1, 6⟩] []).system.panel = none
        ∧ (calculateSolarSystem 0 0 [⟨100, 1, 6⟩] []).system.panelCount
          = ⌈requiredPanelPowerOf [⟨100, 1, 6⟩] / 550⌉
        ∧ priceOf ((calculateSolarSystem 0 0 [⟨100, 1, 6⟩] []).system.panel) = 0) :=
  ⟨(c10_missing_kind_fallbacks 0 0 [⟨100, 1, 6⟩] []).1 (by decide),
    (c10_missing_kind_fallbacks 0 0 [⟨100, 1, 6⟩] []).2.1 (by decide),
    (c10_missing_kind_fallbacks 0 0 [⟨100, 1, 6⟩] []).2.2 (by decide)⟩

end Inverta
